import Mathlib

/-!
Verification of the chord barrier synchronizer (`unlock_chord` in
`celery/app/builtins.py`) against its specification.

The poller logic of `unlock_chord` is embedded directly from the source.
The external collaborators it calls — the group result (`GroupResult.ready`,
`join`, `join_native`, `failed_join_report`), signature normalization
(`maybe_signature`) and the callback/backend effects (`callback.delay`,
`chord_error_from_stack`, `retry`) — are not part of the source fragment;
they are modelled from the specification, and the observable effects of one
invocation are recorded as an explicit event list.
-/

/-- Outcome of a single group member: a tagged union of a success value and
a failure cause.  The failure cause is carried as the textual representation
of the member's original exception. -/
inductive Outcome where
  | success (v : Int)
  | failure (cause : String)
deriving DecidableEq, Repr

def Outcome.isFailure : Outcome → Bool
  | .success _ => false
  | .failure _ => true

def Outcome.cause : Outcome → String
  | .success _ => ""
  | .failure c => c

/-- Modelled from the spec: a `MemberResultHandle` — one group member's stored
outcome as seen through the result store.  `ready` is the store's readiness
bit, `finishedAt` a completion-order stamp (never consulted by the join),
`fetchTime` the time the value fetch takes, and `outcome` the stored result. -/
structure Member where
  id : String
  ready : Bool
  finishedAt : Nat
  fetchTime : Nat
  outcome : Outcome
deriving DecidableEq, Repr

/-- Error raised by a join: either the first failed member's exception
(propagate mode) or a value-fetch timeout. -/
inductive JoinExc where
  | memberFailure (id : String) (cause : String)
  | timeout
deriving DecidableEq, Repr

/-- Textual representation of a join exception, standing for Python repr. -/
def excRepr : JoinExc → String
  | .memberFailure _ cause => cause
  | .timeout => "TimeoutError(The operation timed out.)"

/-- Modelled from the spec: the `GroupSnapshot` reconstructed by each poll
attempt — `GroupResult(group_id, [result_from_tuple(r) for r in result])`,
together with the backend capability bit consulted by
`deps.supports_native_join`. -/
structure GroupResult where
  group_id : String
  results : List Member
  supports_native_join : Bool
deriving DecidableEq, Repr

/-- Modelled from the spec: `deps.ready()` — all members are complete. -/
def GroupResult.ready (g : GroupResult) : Bool :=
  g.results.all (·.ready)

/-- Total value-fetch time for a list of members. -/
def fetchTimeTotal (ms : List Member) : Nat :=
  ms.foldl (fun acc m => acc + m.fetchTime) 0

/-- Modelled from the spec: the per-member sequential collection step of the
generic join.  Under propagate, the first failure aborts the join and is
surfaced as an error identifying that member and its cause; otherwise
failures are embedded inline, one entry per member, in member order. -/
def joinCollect (propagate : Bool) : List Member → Except JoinExc (List Outcome)
  | [] => .ok []
  | m :: rest =>
    match m.outcome with
    | .failure c =>
      if propagate then .error (.memberFailure m.id c)
      else (joinCollect propagate rest).map (.failure c :: ·)
    | .success v => (joinCollect propagate rest).map (.success v :: ·)

/-- Modelled from the spec: `deps.join(timeout, propagate)` — the generic
per-member join.  The fetch is bounded by `timeout`; exceeding the budget
surfaces as an error, never as a silent partial result. -/
def GroupResult.join (g : GroupResult) (timeout : Nat) (propagate : Bool) :
    Except JoinExc (List Outcome) :=
  if timeout < fetchTimeTotal g.results then .error .timeout
  else joinCollect propagate g.results

/-- First member whose stored outcome is a failure. -/
def firstFailure (ms : List Member) : Option Member :=
  ms.find? (fun m => m.outcome.isFailure)

/-- Modelled from the spec: `deps.join_native(timeout, propagate)` — the bulk
join used when the store supports a single fetch of all member outcomes. -/
def GroupResult.join_native (g : GroupResult) (timeout : Nat) (propagate : Bool) :
    Except JoinExc (List Outcome) :=
  if timeout < fetchTimeTotal g.results then .error .timeout
  else if propagate then
    match firstFailure g.results with
    | some m => .error (.memberFailure m.id m.outcome.cause)
    | none => .ok (g.results.map (·.outcome))
  else .ok (g.results.map (·.outcome))

/-- Modelled from the spec: `deps.failed_join_report()` — the members whose
stored state is a failure, in member order; `unlock_chord` takes the first. -/
def GroupResult.failed_join_report (g : GroupResult) : List Member :=
  g.results.filter (fun m => m.outcome.isFailure)

/-- A resolved callback signature.  `delayFails` is `some cause` when
submitting the callback (`callback.delay`) raises, with `cause` the textual
representation of the raised exception. -/
structure Signature where
  task : String
  delayFails : Option String
deriving DecidableEq, Repr

/-- A callback reference as passed over the wire: either a serialized form
or an already-resolved signature. -/
inductive CallbackRef where
  | raw (task : String) (delayFails : Option String)
  | sig (s : Signature)
deriving DecidableEq, Repr

/-- Modelled from the spec: `maybe_signature(callback, app)` — normalizes a
serialized callback into a signature and returns an already-resolved
signature unchanged. -/
def maybe_signature : CallbackRef → CallbackRef
  | .raw task delayFails => .sig { task := task, delayFails := delayFails }
  | .sig s => .sig s

def CallbackRef.delayFails : CallbackRef → Option String
  | .raw _ d => d
  | .sig s => s.delayFails

/-- Process-wide configuration (`app.conf`).  Only
`CELERY_CHORD_PROPAGATES` is consulted by the chord unlock task; the other
field stands for the rest of the configuration. -/
structure Config where
  CELERY_CHORD_PROPAGATES : Bool
  other_setting : Nat
deriving DecidableEq, Repr

/-- The task object created by `add_unlock_chord_task`: the default
propagate flag captured from configuration at creation time, and the
decorator's `default_retry_delay=1`. -/
structure UnlockTask where
  default_propagate : Bool
  default_retry_delay : Nat
deriving DecidableEq, Repr

/-- `add_unlock_chord_task(app)`: resolves `default_propagate` from
`app.conf.CELERY_CHORD_PROPAGATES` once, at task-creation time, and fixes
`default_retry_delay = 1`. -/
def add_unlock_chord_task (conf : Config) : UnlockTask :=
  { default_propagate := conf.CELERY_CHORD_PROPAGATES, default_retry_delay := 1 }

/-- The serialized invocation arguments of one `unlock_chord` attempt. -/
structure UnlockArgs where
  group_id : String
  callback : CallbackRef
  interval : Option Nat
  propagate : Option Bool
  max_retries : Option Nat
  result : List Member
  supports_native_join : Bool
deriving DecidableEq, Repr

/-- The group snapshot an invocation reconstructs from its arguments
(`deps = GroupResult(group_id, [result_from_tuple(r) for r in result])`). -/
def UnlockArgs.deps (a : UnlockArgs) : GroupResult :=
  { group_id := a.group_id, results := a.result,
    supports_native_join := a.supports_native_join }

/-- Observable effects of one `unlock_chord` invocation, in order:
a join call (recording which strategy, the timeout and the propagate flag),
a `callback.delay` submission (recording whether it raised), an error report
through `app.backend.chord_error_from_stack`, or a scheduled retry. -/
inductive Event where
  | joinCalled (native : Bool) (timeout : Nat) (propagate : Bool)
  | delayCalled (ret : List Outcome) (raised : Bool)
  | chordErrorFromStack (reason : String)
  | retryScheduled (countdown : Nat) (max_retries : Option Nat)
deriving DecidableEq, Repr

/-- What one invocation did: its event list and how many times the callback
signature was resolved (`maybe_signature` call sites executed). -/
structure UnlockResult where
  events : List Event
  resolveCount : Nat
deriving DecidableEq, Repr

/-- `propagate = default_propagate if propagate is None else propagate`. -/
def effective_propagate (task : UnlockTask) (a : UnlockArgs) : Bool :=
  match a.propagate with
  | none => task.default_propagate
  | some p => p

/-- `interval = unlock_chord.default_retry_delay if interval is None`. -/
def effective_interval (task : UnlockTask) (a : UnlockArgs) : Nat :=
  match a.interval with
  | none => task.default_retry_delay
  | some i => i

/-- The join performed in the ready branch:
`j = deps.join_native if deps.supports_native_join else deps.join`,
invoked as `j(timeout=3.0, propagate=propagate)`. -/
def joinResult (task : UnlockTask) (a : UnlockArgs) : Except JoinExc (List Outcome) :=
  if a.deps.supports_native_join then
    a.deps.join_native 3 (effective_propagate task a)
  else
    a.deps.join 3 (effective_propagate task a)

/-- The reason string built in the except branch:
names the first failed member when one exists
(`Dependency d raised e`), otherwise the textual representation
of the join exception alone. -/
def joinErrorReason (deps : GroupResult) (exc : JoinExc) : String :=
  match deps.failed_join_report.head? with
  | some culprit => "Dependency " ++ culprit.id ++ " raised " ++ excRepr exc
  | none => excRepr exc

/-- The body of `unlock_chord(group_id, callback, interval, propagate,
max_retries, result)`, embedded from `celery/app/builtins.py` lines 52-101.
The callback is resolved at line 66 and again, inside the ready branch, at
line 74; the not-ready branch raises `unlock_chord.retry(countdown=interval,
max_retries=max_retries)`. -/
def unlock_chord (task : UnlockTask) (a : UnlockArgs) : UnlockResult :=
  let propagate := effective_propagate task a
  let interval := effective_interval task a
  let callback := maybe_signature a.callback
  let deps := a.deps
  if deps.ready then
    let callback := maybe_signature callback
    match joinResult task a with
    | .error exc =>
      { events := [.joinCalled deps.supports_native_join 3 propagate,
                   .chordErrorFromStack (joinErrorReason deps exc)],
        resolveCount := 2 }
    | .ok ret =>
      match callback.delayFails with
      | none =>
        { events := [.joinCalled deps.supports_native_join 3 propagate,
                     .delayCalled ret false],
          resolveCount := 2 }
      | some exc =>
        { events := [.joinCalled deps.supports_native_join 3 propagate,
                     .delayCalled ret true,
                     .chordErrorFromStack ("Callback error: " ++ exc)],
          resolveCount := 2 }
  else
    { events := [.retryScheduled interval a.max_retries], resolveCount := 1 }

/-- A retry lifetime for one chord: the concatenated events of a sequence of
poll invocations (each invocation reconstructs its snapshot afresh). -/
def lifetimeEvents (task : UnlockTask) (invocations : List UnlockArgs) : List Event :=
  (invocations.map (fun a => (unlock_chord task a).events)).flatten

def isDelayEvent : Event → Bool
  | .delayCalled _ _ => true
  | _ => false

def isReportEvent : Event → Bool
  | .chordErrorFromStack _ => true
  | _ => false

def isRetryEvent : Event → Bool
  | .retryScheduled _ _ => true
  | _ => false

def isJoinEvent : Event → Bool
  | .joinCalled _ _ _ => true
  | _ => false

/-- Number of `callback.delay` submissions in an event list. -/
def dispatchCount (es : List Event) : Nat := es.countP isDelayEvent

/-- Number of `chord_error_from_stack` reports in an event list. -/
def reportCount (es : List Event) : Nat := es.countP isReportEvent

/-- Number of scheduled retries in an event list. -/
def retryCount (es : List Event) : Nat := es.countP isRetryEvent

/-- Number of join calls in an event list. -/
def joinCount (es : List Event) : Nat := es.countP isJoinEvent

/-! ### Concrete fixtures used to exercise the theorems -/

def memberA : Member :=
  { id := "A", ready := true, finishedAt := 2, fetchTime := 0, outcome := .success 1 }

def memberB : Member :=
  { id := "B", ready := true, finishedAt := 3, fetchTime := 0, outcome := .failure "ValueError(x)" }

def memberC : Member :=
  { id := "C", ready := true, finishedAt := 1, fetchTime := 0, outcome := .success 2 }

def memberPending : Member :=
  { id := "P", ready := false, finishedAt := 0, fetchTime := 0, outcome := .success 0 }

def memberSlow : Member :=
  { id := "S", ready := true, finishedAt := 0, fetchTime := 5, outcome := .success 7 }

def argsReadyOk : UnlockArgs :=
  { group_id := "g1", callback := .raw "body" none, interval := none, propagate := none,
    max_retries := none, result := [memberA], supports_native_join := false }

def argsNotReady : UnlockArgs := { argsReadyOk with result := [memberPending] }

def argsOrder : UnlockArgs :=
  { argsReadyOk with result := [memberA, memberB, memberC], propagate := some false }

def argsFailProp : UnlockArgs :=
  { argsReadyOk with result := [memberA, memberB, memberC], propagate := some true }

def argsDelayRaises : UnlockArgs :=
  { argsReadyOk with callback := .raw "body" (some "RuntimeError(boom)") }

def argsSlowFetch : UnlockArgs := { argsReadyOk with result := [memberSlow] }

def argsEmpty : UnlockArgs := { argsReadyOk with result := [] }

/-! ### Helper lemmas about the modelled collaborators -/

theorem delayFails_maybe_signature (c : CallbackRef) :
    (maybe_signature c).delayFails = c.delayFails := by
  cases c <;> rfl

theorem maybe_signature_idem (c : CallbackRef) :
    maybe_signature (maybe_signature c) = maybe_signature c := by
  cases c <;> rfl

theorem joinCollect_false (ms : List Member) :
    joinCollect false ms = .ok (ms.map (·.outcome)) := by
  induction ms with
  | nil => rfl
  | cons m rest ih =>
    cases h : m.outcome with
    | success v => simp [joinCollect, h, ih, Except.map]
    | failure c => simp [joinCollect, h, ih, Except.map]

theorem isFailure_success (v : Int) : (Outcome.success v).isFailure = false := rfl

theorem isFailure_failure (c : String) : (Outcome.failure c).isFailure = true := rfl

theorem joinCollect_true (ms : List Member) :
    joinCollect true ms =
      (match firstFailure ms with
       | some m => .error (.memberFailure m.id m.outcome.cause)
       | none => .ok (ms.map (·.outcome))) := by
  induction ms with
  | nil => rfl
  | cons m rest ih =>
    cases h : m.outcome with
    | failure c =>
      simp [joinCollect, h, firstFailure, List.find?_cons, isFailure_failure, Outcome.cause]
    | success v =>
      simp only [joinCollect, h, ih]
      simp only [firstFailure, List.find?_cons, h, isFailure_success]
      cases hf : List.find? (fun m => m.outcome.isFailure) rest with
      | none => simp [hf, Except.map, h]
      | some culprit => simp [hf, Except.map]

theorem join_native_eq_join (g : GroupResult) (timeout : Nat) (propagate : Bool) :
    g.join_native timeout propagate = g.join timeout propagate := by
  unfold GroupResult.join_native GroupResult.join
  cases propagate with
  | false => simp [joinCollect_false]
  | true =>
    simp only [joinCollect_true]
    cases h : firstFailure g.results <;> simp [h]

theorem joinCollect_ok (propagate : Bool) (ms : List Member) (ret : List Outcome)
    (h : joinCollect propagate ms = .ok ret) :
    ret = ms.map (·.outcome) := by
  cases propagate with
  | false => rw [joinCollect_false] at h; cases h; rfl
  | true =>
    rw [joinCollect_true] at h
    cases hf : firstFailure ms with
    | none => rw [hf] at h; cases h; rfl
    | some culprit => rw [hf] at h; cases h

theorem join_ok (g : GroupResult) (timeout : Nat) (propagate : Bool) (ret : List Outcome)
    (h : g.join timeout propagate = .ok ret) :
    ret = g.results.map (·.outcome) := by
  unfold GroupResult.join at h
  by_cases ht : timeout < fetchTimeTotal g.results
  · simp [ht] at h
  · simp [ht] at h
    exact joinCollect_ok propagate g.results ret h

theorem joinResult_ok (task : UnlockTask) (a : UnlockArgs) (ret : List Outcome)
    (h : joinResult task a = .ok ret) :
    ret = a.result.map (·.outcome) := by
  unfold joinResult at h
  by_cases hn : a.deps.supports_native_join
  · rw [if_pos hn, join_native_eq_join] at h
    exact join_ok _ _ _ _ h
  · rw [if_neg hn] at h
    exact join_ok _ _ _ _ h

theorem head_filter_eq_find (p : Member → Bool) (l : List Member) :
    (l.filter p).head? = l.find? p := by
  induction l with
  | nil => rfl
  | cons m rest ih =>
    by_cases h : p m
    · simp [List.filter_cons, h, List.find?_cons]
    · simp only [List.filter_cons, List.find?_cons]
      simp [h, ih]

theorem unlock_chord_not_ready (task : UnlockTask) (a : UnlockArgs)
    (h : a.deps.ready = false) :
    unlock_chord task a =
      { events := [.retryScheduled (effective_interval task a) a.max_retries],
        resolveCount := 1 } := by
  unfold unlock_chord
  simp [h]

theorem unlock_chord_ready_error (task : UnlockTask) (a : UnlockArgs) (exc : JoinExc)
    (h : a.deps.ready = true) (hj : joinResult task a = .error exc) :
    unlock_chord task a =
      { events := [.joinCalled a.deps.supports_native_join 3 (effective_propagate task a),
                   .chordErrorFromStack (joinErrorReason a.deps exc)],
        resolveCount := 2 } := by
  unfold unlock_chord
  simp [h, hj]

theorem unlock_chord_ready_ok (task : UnlockTask) (a : UnlockArgs) (ret : List Outcome)
    (h : a.deps.ready = true) (hj : joinResult task a = .ok ret)
    (hd : a.callback.delayFails = none) :
    unlock_chord task a =
      { events := [.joinCalled a.deps.supports_native_join 3 (effective_propagate task a),
                   .delayCalled ret false],
        resolveCount := 2 } := by
  unfold unlock_chord
  simp [h, hj, delayFails_maybe_signature, hd]

theorem unlock_chord_ready_ok_delayRaises (task : UnlockTask) (a : UnlockArgs)
    (ret : List Outcome) (cause : String)
    (h : a.deps.ready = true) (hj : joinResult task a = .ok ret)
    (hd : a.callback.delayFails = some cause) :
    unlock_chord task a =
      { events := [.joinCalled a.deps.supports_native_join 3 (effective_propagate task a),
                   .delayCalled ret true,
                   .chordErrorFromStack ("Callback error: " ++ cause)],
        resolveCount := 2 } := by
  unfold unlock_chord
  simp [h, hj, delayFails_maybe_signature, hd]

theorem lifetimeEvents_nil (task : UnlockTask) : lifetimeEvents task [] = [] := rfl

theorem lifetimeEvents_cons (task : UnlockTask) (a : UnlockArgs) (rest : List UnlockArgs) :
    lifetimeEvents task (a :: rest) =
      (unlock_chord task a).events ++ lifetimeEvents task rest := by
  simp [lifetimeEvents]

theorem dispatchCount_append (l1 l2 : List Event) :
    dispatchCount (l1 ++ l2) = dispatchCount l1 + dispatchCount l2 := by
  simp [dispatchCount, List.countP_append]

theorem reportCount_append (l1 l2 : List Event) :
    reportCount (l1 ++ l2) = reportCount l1 + reportCount l2 := by
  simp [reportCount, List.countP_append]

theorem retryCount_append (l1 l2 : List Event) :
    retryCount (l1 ++ l2) = retryCount l1 + retryCount l2 := by
  simp [retryCount, List.countP_append]

theorem joinCount_append (l1 l2 : List Event) :
    joinCount (l1 ++ l2) = joinCount l1 + joinCount l2 := by
  simp [joinCount, List.countP_append]

theorem single_dispatch_report (task : UnlockTask) (a : UnlockArgs)
    (hd : a.callback.delayFails = none) :
    dispatchCount (unlock_chord task a).events +
      reportCount (unlock_chord task a).events =
      (if a.deps.ready then 1 else 0) := by
  cases hr : a.deps.ready with
  | false =>
    rw [unlock_chord_not_ready task a hr]
    simp [dispatchCount, reportCount, List.countP_cons, List.countP_nil,
      isDelayEvent, isReportEvent]
  | true =>
    cases hj : joinResult task a with
    | error exc =>
      rw [unlock_chord_ready_error task a exc hr hj]
      simp [dispatchCount, reportCount, List.countP_cons, List.countP_nil,
        isDelayEvent, isReportEvent]
    | ok ret =>
      rw [unlock_chord_ready_ok task a ret hr hj hd]
      simp [dispatchCount, reportCount, List.countP_cons, List.countP_nil,
        isDelayEvent, isReportEvent]

theorem lifetime_not_ready_zero (task : UnlockTask) (invocations : List UnlockArgs)
    (h : ∀ a ∈ invocations, a.deps.ready = false) :
    dispatchCount (lifetimeEvents task invocations) = 0 ∧
    reportCount (lifetimeEvents task invocations) = 0 := by
  induction invocations with
  | nil => simp [lifetimeEvents_nil, dispatchCount, reportCount]
  | cons a rest ih =>
    have ha := h a (List.mem_cons_self a rest)
    have hrest := ih (fun b hb => h b (List.mem_cons_of_mem a hb))
    rw [lifetimeEvents_cons, dispatchCount_append, reportCount_append,
      unlock_chord_not_ready task a ha]
    exact ⟨by rw [hrest.1]; rfl, by rw [hrest.2]; rfl⟩


theorem retryCount_ready_zero (task : UnlockTask) (a : UnlockArgs)
    (h : a.deps.ready = true) : retryCount (unlock_chord task a).events = 0 := by
  cases hj : joinResult task a with
  | error exc =>
    rw [unlock_chord_ready_error task a exc h hj]
    simp [retryCount, List.countP_cons, List.countP_nil, isRetryEvent]
  | ok ret =>
    cases hd : a.callback.delayFails with
    | none =>
      rw [unlock_chord_ready_ok task a ret h hj hd]
      simp [retryCount, List.countP_cons, List.countP_nil, isRetryEvent]
    | some c =>
      rw [unlock_chord_ready_ok_delayRaises task a ret c h hj hd]
      simp [retryCount, List.countP_cons, List.countP_nil, isRetryEvent]

theorem joinCount_ready_one (task : UnlockTask) (a : UnlockArgs)
    (h : a.deps.ready = true) : joinCount (unlock_chord task a).events = 1 := by
  cases hj : joinResult task a with
  | error exc =>
    rw [unlock_chord_ready_error task a exc h hj]
    simp [joinCount, List.countP_cons, List.countP_nil, isJoinEvent]
  | ok ret =>
    cases hd : a.callback.delayFails with
    | none =>
      rw [unlock_chord_ready_ok task a ret h hj hd]
      simp [joinCount, List.countP_cons, List.countP_nil, isJoinEvent]
    | some c =>
      rw [unlock_chord_ready_ok_delayRaises task a ret c h hj hd]
      simp [joinCount, List.countP_cons, List.countP_nil, isJoinEvent]

theorem unlock_chord_ready_head (task : UnlockTask) (a : UnlockArgs)
    (h : a.deps.ready = true) :
    (unlock_chord task a).events.head? =
      some (.joinCalled a.deps.supports_native_join 3 (effective_propagate task a)) := by
  cases hj : joinResult task a with
  | error exc => rw [unlock_chord_ready_error task a exc h hj]; rfl
  | ok ret =>
    cases hd : a.callback.delayFails with
    | none => rw [unlock_chord_ready_ok task a ret h hj hd]; rfl
    | some c => rw [unlock_chord_ready_ok_delayRaises task a ret c h hj hd]; rfl

theorem joinResult_timeout (task : UnlockTask) (a : UnlockArgs)
    (h : 3 < fetchTimeTotal a.result) : joinResult task a = .error .timeout := by
  unfold joinResult GroupResult.join_native GroupResult.join
  have h2 : 3 < fetchTimeTotal a.deps.results := h
  by_cases hn : a.deps.supports_native_join <;> simp [hn, h2]

theorem string_data_head_append (s t : String) (c : Char)
    (h : s.data.head? = some c) : (s ++ t).data.head? = some c := by
  rw [String.data_append]
  cases hs : s.data with
  | nil => rw [hs] at h; cases h
  | cons x xs => rw [hs] at h; cases h; rfl

theorem string_ne_of_head_ne (s t : String) (c d : Char) (hcd : c ≠ d)
    (hs : s.data.head? = some c) (ht : t.data.head? = some d) : s ≠ t := by
  intro h
  rw [h] at hs
  rw [hs] at ht
  exact hcd (Option.some.inj ht)

/-! ### Claims -/

/-- C2: on every invocation in which the group is ready, exactly one terminal
action is taken — the error report via `chord_error_from_stack` when the join
raised (and then no callback dispatch happens), otherwise the callback
dispatch via `callback.delay` (the only event besides the join when the
dispatch does not raise) — and no retry is scheduled in that invocation. -/
theorem ready_invocation_single_terminal (task : UnlockTask) (a : UnlockArgs)
    (h : a.deps.ready = true) :
    retryCount (unlock_chord task a).events = 0 ∧
    (∀ exc, joinResult task a = .error exc →
      reportCount (unlock_chord task a).events = 1 ∧
      dispatchCount (unlock_chord task a).events = 0) ∧
    (∀ ret, joinResult task a = .ok ret →
      dispatchCount (unlock_chord task a).events = 1 ∧
      (a.callback.delayFails = none →
        (unlock_chord task a).events =
          [.joinCalled a.deps.supports_native_join 3 (effective_propagate task a),
           .delayCalled ret false])) := by
  refine ⟨retryCount_ready_zero task a h, ?_, ?_⟩
  · intro exc hj
    rw [unlock_chord_ready_error task a exc h hj]
    exact ⟨rfl, rfl⟩
  · intro ret hj
    constructor
    · cases hd : a.callback.delayFails with
      | none => rw [unlock_chord_ready_ok task a ret h hj hd]; rfl
      | some c => rw [unlock_chord_ready_ok_delayRaises task a ret c h hj hd]; rfl
    · intro hd
      rw [unlock_chord_ready_ok task a ret h hj hd]

/-- C2 witness: for a ready single-member group the callback is dispatched
exactly once. -/
theorem ready_invocation_single_terminal_witness :
    dispatchCount (unlock_chord ⟨true, 1⟩ argsReadyOk).events = 1 :=
  ((ready_invocation_single_terminal ⟨true, 1⟩ argsReadyOk (by decide)).2.2
    [Outcome.success 1] rfl).1

/-- C3: on every invocation in which the group is not ready, the only event is
one scheduled retry after the poll interval — no join is attempted, no
callback is dispatched, no error is reported — and N such invocations produce
no dispatch and schedule exactly N further attempts. -/
theorem not_ready_invocation_retries (task : UnlockTask) (a : UnlockArgs)
    (h : a.deps.ready = false) :
    (unlock_chord task a).events =
      [.retryScheduled (effective_interval task a) a.max_retries] ∧
    (∀ n : Nat,
      dispatchCount (lifetimeEvents task (List.replicate n a)) = 0 ∧
      reportCount (lifetimeEvents task (List.replicate n a)) = 0 ∧
      joinCount (lifetimeEvents task (List.replicate n a)) = 0 ∧
      retryCount (lifetimeEvents task (List.replicate n a)) = n) := by
  constructor
  · rw [unlock_chord_not_ready task a h]
  · intro n
    induction n with
    | zero => exact ⟨rfl, rfl, rfl, rfl⟩
    | succ k ih =>
      rw [List.replicate_succ, lifetimeEvents_cons, dispatchCount_append,
        reportCount_append, joinCount_append, retryCount_append,
        unlock_chord_not_ready task a h, ih.1, ih.2.1, ih.2.2.1, ih.2.2.2]
      refine ⟨rfl, rfl, rfl, ?_⟩
      show 1 + k = k + 1
      exact Nat.add_comm 1 k

/-- C3 witness: two not-ready invocations schedule exactly two retries and
dispatch nothing. -/
theorem not_ready_invocation_retries_witness :
    retryCount (lifetimeEvents ⟨true, 1⟩ (List.replicate 2 argsNotReady)) = 2 :=
  ((not_ready_invocation_retries ⟨true, 1⟩ argsNotReady (by decide)).2 2).2.2.2

/-- C4: whenever a callback dispatch happens, the result list handed to the
callback has exactly one outcome per member of the serialized group, in the
original member order (the completion stamps and observation order of the
members never influence it). -/
theorem callback_result_order (task : UnlockTask) (a : UnlockArgs)
    (ret : List Outcome) (raised : Bool)
    (h : Event.delayCalled ret raised ∈ (unlock_chord task a).events) :
    ret = a.result.map Member.outcome ∧ ret.length = a.result.length := by
  have hret : ret = a.result.map Member.outcome := by
    cases hr : a.deps.ready with
    | false =>
      rw [unlock_chord_not_ready task a hr] at h
      simp at h
    | true =>
      cases hj : joinResult task a with
      | error exc =>
        rw [unlock_chord_ready_error task a exc hr hj] at h
        simp at h
      | ok r0 =>
        have hr0 := joinResult_ok task a r0 hj
        cases hd : a.callback.delayFails with
        | none =>
          rw [unlock_chord_ready_ok task a r0 hr hj hd] at h
          simp at h
          rw [h.1, hr0]
        | some c =>
          rw [unlock_chord_ready_ok_delayRaises task a r0 c hr hj hd] at h
          simp at h
          rw [h.1, hr0]
  exact ⟨hret, by rw [hret, List.length_map]⟩

/-- C4 witness: a group whose members completed out of order, with an inline
failure under propagate=false, still hands the callback one outcome per
member in original member order. -/
theorem callback_result_order_witness :
    ([Outcome.success 1, Outcome.failure "ValueError(x)", Outcome.success 2] :
        List Outcome) = argsOrder.result.map Member.outcome :=
  (callback_result_order ⟨true, 1⟩ argsOrder
    [Outcome.success 1, Outcome.failure "ValueError(x)", Outcome.success 2]
    false (by decide)).1

/-- C5: whenever the join raises, the invocation ends with exactly one
synthesized ChordError delivered through `chord_error_from_stack` (no
dispatch, no retry, nothing re-raised to the caller), and the reason names
the first failed member's id together with the textual representation of the
exception when a failed member exists, and is the textual representation of
the exception alone otherwise. -/
theorem join_error_report (task : UnlockTask) (a : UnlockArgs) (exc : JoinExc)
    (h : a.deps.ready = true) (hj : joinResult task a = .error exc) :
    (unlock_chord task a).events =
      [.joinCalled a.deps.supports_native_join 3 (effective_propagate task a),
       .chordErrorFromStack (joinErrorReason a.deps exc)] ∧
    reportCount (unlock_chord task a).events = 1 ∧
    dispatchCount (unlock_chord task a).events = 0 ∧
    retryCount (unlock_chord task a).events = 0 ∧
    joinErrorReason a.deps exc =
      (match a.result.find? (fun m => m.outcome.isFailure) with
       | some culprit => "Dependency " ++ culprit.id ++ " raised " ++ excRepr exc
       | none => excRepr exc) := by
  have he := unlock_chord_ready_error task a exc h hj
  refine ⟨by rw [he], by rw [he]; rfl, by rw [he]; rfl, by rw [he]; rfl, ?_⟩
  unfold joinErrorReason
  have hf : a.deps.failed_join_report.head? =
      a.result.find? (fun m => m.outcome.isFailure) := by
    unfold GroupResult.failed_join_report
    exact head_filter_eq_find _ _
  rw [hf]

/-- C5 witness: a propagate=true group with a failed member reports the
reason naming the first failed member and its exception text. -/
theorem join_error_report_witness :
    reportCount (unlock_chord ⟨true, 1⟩ argsFailProp).events = 1 :=
  (join_error_report ⟨true, 1⟩ argsFailProp
    (.memberFailure "B" "ValueError(x)") (by decide) rfl).2.1

/-- C6: if the join succeeded but submitting the callback raises,
`unlock_chord` catches the failure and reports a ChordError whose reason
wraps the textual representation of the cause after the distinguishing
Callback-error marker — a reason distinct from any member-failure reason —
and the dispatch failure does not escape the invocation (the events end with
the report; no retry, nothing re-raised). -/
theorem callback_error_converted (task : UnlockTask) (a : UnlockArgs)
    (ret : List Outcome) (cause : String)
    (h : a.deps.ready = true) (hj : joinResult task a = .ok ret)
    (hd : a.callback.delayFails = some cause) :
    (unlock_chord task a).events =
      [.joinCalled a.deps.supports_native_join 3 (effective_propagate task a),
       .delayCalled ret true,
       .chordErrorFromStack ("Callback error: " ++ cause)] ∧
    retryCount (unlock_chord task a).events = 0 ∧
    (∃ rest, "Callback error: " ++ cause = "Callback error:" ++ rest) ∧
    (∀ d e : String,
      "Callback error: " ++ cause ≠ "Dependency " ++ d ++ " raised " ++ e) := by
  refine ⟨by rw [unlock_chord_ready_ok_delayRaises task a ret cause h hj hd],
    retryCount_ready_zero task a h, ?_, ?_⟩
  · refine ⟨" " ++ cause, ?_⟩
    rw [← String.append_assoc]
    have hlit : ("Callback error:" ++ " " : String) = "Callback error: " := by decide
    rw [hlit]
  · intro d e
    have hC : ("Callback error: " ++ cause).data.head? = some 'C' :=
      string_data_head_append _ _ _ (by decide)
    have h1 : ("Dependency " ++ d).data.head? = some 'D' :=
      string_data_head_append _ _ _ (by decide)
    have h2 : ("Dependency " ++ d ++ " raised ").data.head? = some 'D' :=
      string_data_head_append _ _ _ h1
    have h3 : ("Dependency " ++ d ++ " raised " ++ e).data.head? = some 'D' :=
      string_data_head_append _ _ _ h2
    exact string_ne_of_head_ne _ _ 'C' 'D' (by decide) hC h3

/-- C6 witness: a raising callback submission on a successfully joined group
ends the invocation without a retry (the dispatch failure was converted). -/
theorem callback_error_converted_witness :
    retryCount (unlock_chord ⟨true, 1⟩ argsDelayRaises).events = 0 :=
  (callback_error_converted ⟨true, 1⟩ argsDelayRaises [Outcome.success 1]
    "RuntimeError(boom)" (by decide) rfl rfl).2.1

/-- C7: on a ready group the join is invoked exactly once, with the native
bulk strategy exactly when the group result supports a native join and the
generic per-member strategy otherwise (the two algorithms being
interchangeable), and always with the value-fetch timeout of 3 time units;
a group whose fetch exceeds that budget surfaces through the error-report
path, never as a partial dispatch. -/
theorem join_strategy_timeout (task : UnlockTask) (a : UnlockArgs)
    (h : a.deps.ready = true) :
    (unlock_chord task a).events.head? =
      some (.joinCalled a.deps.supports_native_join 3 (effective_propagate task a)) ∧
    joinCount (unlock_chord task a).events = 1 ∧
    joinResult task a =
      (if a.deps.supports_native_join then
        a.deps.join_native 3 (effective_propagate task a)
       else a.deps.join 3 (effective_propagate task a)) ∧
    (∀ (g : GroupResult) (timeout : Nat) (p : Bool),
      g.join_native timeout p = g.join timeout p) ∧
    (3 < fetchTimeTotal a.result →
      dispatchCount (unlock_chord task a).events = 0 ∧
      reportCount (unlock_chord task a).events = 1) := by
  refine ⟨unlock_chord_ready_head task a h, joinCount_ready_one task a h, rfl,
    join_native_eq_join, ?_⟩
  intro ht
  have hj := joinResult_timeout task a ht
  rw [unlock_chord_ready_error task a .timeout h hj]
  exact ⟨rfl, rfl⟩

/-- C7 witness: a ready member whose value fetch takes 5 units exceeds the
3-unit budget and is reported through the failure path. -/
theorem join_strategy_timeout_witness :
    reportCount (unlock_chord ⟨true, 1⟩ argsSlowFetch).events = 1 :=
  ((join_strategy_timeout ⟨true, 1⟩ argsSlowFetch (by decide)).2.2.2.2
    (by decide)).2

/-- C8: the effective propagate flag equals the explicit argument when that
argument is supplied, and otherwise the process-wide default captured once at
task-creation time; two configurations agreeing on CELERY_CHORD_PROPAGATES
give identical invocation behavior (nothing else is re-read from
configuration), and the flag handed to the join is that effective value. -/
theorem propagate_flag_resolution (conf : Config) (a : UnlockArgs) :
    effective_propagate (add_unlock_chord_task conf) a =
      (match a.propagate with
       | some p => p
       | none => conf.CELERY_CHORD_PROPAGATES) ∧
    (∀ conf2 : Config,
      conf2.CELERY_CHORD_PROPAGATES = conf.CELERY_CHORD_PROPAGATES →
      unlock_chord (add_unlock_chord_task conf2) a =
        unlock_chord (add_unlock_chord_task conf) a) ∧
    (a.deps.ready = true →
      (unlock_chord (add_unlock_chord_task conf) a).events.head? =
        some (.joinCalled a.deps.supports_native_join 3
          (effective_propagate (add_unlock_chord_task conf) a))) := by
  refine ⟨?_, ?_, fun h => unlock_chord_ready_head _ a h⟩
  · cases hp : a.propagate <;> simp [effective_propagate, add_unlock_chord_task, hp]
  · intro conf2 h2
    unfold add_unlock_chord_task
    rw [h2]

/-- C8 witness: with no explicit propagate argument and a creation-time
default of false, the join is invoked with propagate false. -/
theorem propagate_flag_resolution_witness :
    (unlock_chord (add_unlock_chord_task ⟨false, 0⟩) argsReadyOk).events.head? =
      some (Event.joinCalled false 3 false) :=
  (propagate_flag_resolution ⟨false, 0⟩ argsReadyOk).2.2 (by decide)

/-- C9 counterexample: on a ready poll attempt the callback signature is
resolved twice — once before the readiness check (builtins.py line 66) and
once again inside the ready branch (line 74) — not exactly once. -/
theorem double_resolution_counterexample :
    (unlock_chord ⟨true, 1⟩ argsReadyOk).resolveCount = 2 ∧
    (unlock_chord ⟨true, 1⟩ argsReadyOk).resolveCount ≠ 1 := by decide

/-- C9 (amended): the callback signature is resolved once on a not-ready
attempt and twice on a ready attempt; the resolution is idempotent —
resolving an already-resolved reference returns it unchanged and preserves
the callback's submission behavior — and mutates no stored state, so the
redundant second resolution has no observable effect. -/
theorem resolution_count_idempotent (task : UnlockTask) (a : UnlockArgs) :
    (unlock_chord task a).resolveCount = (if a.deps.ready then 2 else 1) ∧
    (∀ c : CallbackRef, maybe_signature (maybe_signature c) = maybe_signature c) ∧
    (∀ c : CallbackRef, (maybe_signature c).delayFails = c.delayFails) := by
  refine ⟨?_, maybe_signature_idem, delayFails_maybe_signature⟩
  cases hr : a.deps.ready with
  | false => rw [unlock_chord_not_ready task a hr]; rfl
  | true =>
    cases hj : joinResult task a with
    | error exc => rw [unlock_chord_ready_error task a exc hr hj]; rfl
    | ok ret =>
      cases hd : a.callback.delayFails with
      | none => rw [unlock_chord_ready_ok task a ret hr hj hd]; rfl
      | some c => rw [unlock_chord_ready_ok_delayRaises task a ret c hr hj hd]; rfl

/-- C10: an empty header group is ready on the first invocation: no retry is
ever scheduled, the join succeeds with the empty result list, and (when the
dispatch itself does not raise) the callback is invoked with that empty
list. -/
theorem empty_group_fires_immediately (task : UnlockTask) (a : UnlockArgs)
    (h : a.result = []) :
    a.deps.ready = true ∧
    retryCount (unlock_chord task a).events = 0 ∧
    joinResult task a = .ok [] ∧
    (a.callback.delayFails = none →
      (unlock_chord task a).events =
        [.joinCalled a.deps.supports_native_join 3 (effective_propagate task a),
         .delayCalled [] false]) := by
  have hready : a.deps.ready = true := by
    simp [GroupResult.ready, UnlockArgs.deps, h]
  have hjoin : joinResult task a = .ok [] := by
    unfold joinResult GroupResult.join_native GroupResult.join
    have hres : a.deps.results = [] := h
    rw [hres]
    simp [fetchTimeTotal, joinCollect, firstFailure]
  refine ⟨hready, retryCount_ready_zero task a hready, hjoin, fun hd => ?_⟩
  rw [unlock_chord_ready_ok task a [] hready hjoin hd]

/-- C10 witness: an empty serialized result list dispatches the callback with
the empty list on the very first invocation. -/
theorem empty_group_fires_immediately_witness :
    (unlock_chord ⟨true, 1⟩ argsEmpty).events =
      [Event.joinCalled false 3 true, Event.delayCalled [] false] :=
  (empty_group_fires_immediately ⟨true, 1⟩ argsEmpty rfl).2.2.2 rfl

/-- C1 counterexample: `unlock_chord` keeps no terminal-state memory —
re-invoking the poller for the same groupID after its terminal DONE outcome
dispatches the callback a second time, so across that two-invocation
lifetime the callback dispatch and the error report together occur twice,
not at most once. -/
theorem redispatch_counterexample :
    dispatchCount (lifetimeEvents ⟨true, 1⟩ [argsReadyOk, argsReadyOk]) = 2 ∧
    ¬ (dispatchCount (lifetimeEvents ⟨true, 1⟩ [argsReadyOk, argsReadyOk]) +
        reportCount (lifetimeEvents ⟨true, 1⟩ [argsReadyOk, argsReadyOk]) ≤ 1) := by
  decide

/-- C1 (amended): each single invocation performs at most one callback
dispatch and at most one error report, and a not-ready invocation performs
neither; but the poller does not deduplicate across re-invocations, so across
a retry lifetime the dispatch and the report together occur at most once only
under the proviso that at most one invocation observes the group ready and no
callback submission raises. -/
theorem at_most_once_terminal_action (task : UnlockTask)
    (invocations : List UnlockArgs)
    (hready : invocations.countP (fun a => a.deps.ready) ≤ 1)
    (hdelay : ∀ a ∈ invocations, a.callback.delayFails = none) :
    dispatchCount (lifetimeEvents task invocations) +
      reportCount (lifetimeEvents task invocations) ≤ 1 := by
  revert hready hdelay
  induction invocations with
  | nil =>
    intro _ _
    exact Nat.zero_le 1
  | cons a rest ih =>
    intro hready hdelay
    rw [lifetimeEvents_cons, dispatchCount_append, reportCount_append]
    have hda : a.callback.delayFails = none := hdelay a (List.mem_cons_self a rest)
    have hdrest : ∀ b ∈ rest, b.callback.delayFails = none :=
      fun b hb => hdelay b (List.mem_cons_of_mem a hb)
    have hs := single_dispatch_report task a hda
    rw [List.countP_cons] at hready
    cases hr : a.deps.ready with
    | true =>
      have hone : dispatchCount (unlock_chord task a).events +
          reportCount (unlock_chord task a).events = 1 := by rw [hs, hr]; rfl
      have hif : (if a.deps.ready = true then (1 : Nat) else 0) = 1 := by rw [hr]; rfl
      rw [hif] at hready
      have hcz : rest.countP (fun a => a.deps.ready) = 0 := by omega
      have hallrest : ∀ b ∈ rest, b.deps.ready = false := by
        intro b hb
        have hnb := List.countP_eq_zero.mp hcz b hb
        simpa using hnb
      obtain ⟨hz1, hz2⟩ := lifetime_not_ready_zero task rest hallrest
      omega
    | false =>
      have hzero : dispatchCount (unlock_chord task a).events +
          reportCount (unlock_chord task a).events = 0 := by rw [hs, hr]; rfl
      have hif : (if a.deps.ready = true then (1 : Nat) else 0) = 0 := by rw [hr]; rfl
      rw [hif] at hready
      have hrest2 : rest.countP (fun a => a.deps.ready) ≤ 1 := by omega
      have hrec := ih hrest2 hdrest
      omega

/-- C1 witness: a lifetime in which only the second invocation observes the
group ready performs its terminal action at most once. -/
theorem at_most_once_terminal_action_witness :
    dispatchCount (lifetimeEvents ⟨true, 1⟩ [argsNotReady, argsReadyOk]) +
      reportCount (lifetimeEvents ⟨true, 1⟩ [argsNotReady, argsReadyOk]) ≤ 1 :=
  at_most_once_terminal_action ⟨true, 1⟩ [argsNotReady, argsReadyOk]
    (by decide) (by decide)
